import Mathlib

/-!
Verification development for the chromecast desktop streamer
(`python/cast_stream.py`, `python/cast_gui.py`).

The Python sources are shallowly embedded below: pure computations become
Lean functions, the straight-line orchestration of `main` becomes a
function from an environment (which external steps succeed) to an outcome
and an event trace, and the mutable GUI / global process-handle state
becomes explicit state passing.  Machine integers are `Nat`/`Int`; the
single float parameter (`--gop-seconds`) is embedded as `ℚ`.
-/

namespace CastStream

/-! ## Keyframe interval and FFmpeg command construction
    (`latency_flags`, `build_ffmpeg_cmd` in cast_stream.py) -/

/-- `gop_frames = max(int(fps*max(gop_s, 0.25)), 1)` from `build_ffmpeg_cmd`
(line 423).  `fps * max(gop_s, 0.25) > 0`, so Python `int` truncation toward
zero coincides with the floor. -/
def gop_frames (fps : ℕ) (gop_s : ℚ) : ℕ :=
  max (⌊(fps : ℚ) * max gop_s (1/4)⌋.toNat) 1

/-- `base_in` of `latency_flags`: constant input flags. -/
def lfInput : List String := ["-thread_queue_size", "1024"]

/-- `base_glob` of `latency_flags`: the global-flag half of the
if/elif/else chain on the latency name (lines 385-400). -/
def lfGlobal (latency : String) : List String :=
  if latency = "normal" then ["-probesize", "1M", "-analyzeduration", "1M"]
  else if latency = "low" then
    ["-fflags", "nobuffer", "-flags", "+low_delay", "-probesize", "64k",
     "-analyzeduration", "0", "-flush_packets", "1", "-sc_threshold", "0",
     "-use_wallclock_as_timestamps", "1"]
  else
    ["-fflags", "nobuffer", "-flags", "+low_delay", "-probesize", "32k",
     "-analyzeduration", "0", "-flush_packets", "1", "-sc_threshold", "0",
     "-use_wallclock_as_timestamps", "1"]

/-- `gop_override` of `latency_flags`: the other half of the same
if/elif/else chain (normal: `None`; low: `max(1, gop_frames//2)`;
ultra: `max(1, gop_frames//3)`). -/
def lfGopOverride (latency : String) (gf : ℕ) : Option ℕ :=
  if latency = "normal" then none
  else if latency = "low" then some (max 1 (gf / 2))
  else some (max 1 (gf / 3))

/-- `base_enc` of `latency_flags`: encoder-specific tuning (lines 402-416). -/
def lfEnc (latency hw_codec : String) : List String :=
  if hw_codec = "libx264" then
    (if latency = "low" ∨ latency = "ultra" then ["-tune", "zerolatency"] else [])
  else if hw_codec = "h264_nvenc" then
    (if latency = "low" then ["-tune", "ll", "-rc-lookahead", "0"]
     else if latency = "ultra" then ["-tune", "ull", "-rc-lookahead", "0"]
     else [])
  else if hw_codec = "h264_vaapi" then ["-bf", "0"]
  else if hw_codec = "h264_qsv" then ["-look_ahead", "0"]
  else []

/-- `latency_flags(latency, hw_codec, gop_frames)` returns
`(extra_input_flags, extra_global_flags, extra_encoder_flags, gop_override)`. -/
def latency_flags (latency hw_codec : String) (gf : ℕ) :
    List String × List String × List String × Option ℕ :=
  (lfInput, lfGlobal latency, lfEnc latency hw_codec, lfGopOverride latency gf)

/-- The `-vaapi_device …` filter arguments used whenever the vaapi encoder
is selected in `build_ffmpeg_cmd`. -/
def vaapiPre : List String :=
  ["-vaapi_device", "/dev/dri/renderD128", "-vf", "format=nv12,hwupload"]

/-- Encoder selection of `build_ffmpeg_cmd` (lines 426-446): the `hw`
argument is matched first; the "auto" fallthrough consults
`detect_hwaccel()`, embedded here as the parameter `det` (that probe only
inspects the host environment). -/
def enc_select (hw : String) (det : Option String) : String × List String :=
  if hw = "vaapi" then ("h264_vaapi", vaapiPre)
  else if hw = "cuda" then ("h264_nvenc", [])
  else if hw = "qsv" then ("h264_qsv", [])
  else if hw = "software" then ("libx264", [])
  else if det = some "vaapi" then ("h264_vaapi", vaapiPre)
  else if det = some "cuda" then ("h264_nvenc", [])
  else if det = some "qsv" then ("h264_qsv", [])
  else ("libx264", [])

/-- Per-encoder default quality flags (lines 470-478). -/
def encoder_defaults (enc : String) : List String :=
  if enc = "h264_vaapi" then ["-qp", "24"]
  else if enc = "h264_nvenc" then ["-preset", "p1", "-cq", "23"]
  else if enc = "h264_qsv" then ["-global_quality", "24"]
  else ["-preset", "veryfast", "-crf", "18", "-pix_fmt", "yuv420p"]

/-- Python `gop_override or gop_frames` (line 449): `None` and `0` both
fall back to the default. -/
def pyOrNat (o : Option ℕ) (d : ℕ) : ℕ :=
  match o with
  | none => d
  | some n => if n = 0 then d else n

/-- Everything `build_ffmpeg_cmd` places before the `"-g"` flag, in source
order: fixed header, `in_flags`, capture/audio inputs, `glob_flags`,
`vf_pre`, codec choice, encoder defaults, `enc_flags`. -/
def ffmpegFront (display : String) (W H fps : ℕ) (hw loglevel sink_name latency : String)
    (det : Option String) (gf : ℕ) : List String :=
  ["ffmpeg", "-hide_banner", "-loglevel", loglevel, "-rtbufsize", "100M"]
    ++ (latency_flags latency (enc_select hw det).1 gf).1
    ++ ["-f", "x11grab", "-framerate", toString fps,
        "-video_size", toString W ++ "x" ++ toString H, "-i", display,
        "-vsync", "0", "-thread_queue_size", "1024",
        "-f", "pulse", "-i", sink_name ++ ".monitor", "-draw_mouse", "1"]
    ++ (latency_flags latency (enc_select hw det).1 gf).2.1
    ++ (enc_select hw det).2
    ++ ["-c:v", (enc_select hw det).1]
    ++ encoder_defaults (enc_select hw det).1
    ++ (latency_flags latency (enc_select hw det).1 gf).2.2.1

/-- Everything `build_ffmpeg_cmd` places after the `-keyint_min` value:
audio codec, fragmented-mp4 muxing, and the HTTP listener endpoint. -/
def ffmpegTail (port : ℕ) : List String :=
  ["-c:a", "aac", "-b:a", "192k", "-f", "mp4",
   "-movflags", "frag_keyframe+empty_moov+default_base_moof",
   "-listen", "1", "http://0.0.0.0:" ++ toString port ++ "/"]

/-- `build_ffmpeg_cmd(display, size, fps, hw, gop_s, port, loglevel,
sink_name, latency)` (lines 421-489).  The `size` string is already parsed
to `W`, `H` by the caller-side `split("x")`; the hardware probe result is
the parameter `det`. -/
def build_ffmpeg_cmd (display : String) (W H fps : ℕ) (hw : String) (gop_s : ℚ)
    (port : ℕ) (loglevel sink_name latency : String) (det : Option String) :
    List String :=
  ffmpegFront display W H fps hw loglevel sink_name latency det (gop_frames fps gop_s)
    ++ ["-g",
        toString (pyOrNat
          (latency_flags latency (enc_select hw det).1 (gop_frames fps gop_s)).2.2.2
          (gop_frames fps gop_s)),
        "-keyint_min",
        toString (pyOrNat
          (latency_flags latency (enc_select hw det).1 (gop_frames fps gop_s)).2.2.2
          (gop_frames fps gop_s))]
    ++ ffmpegTail port

/-- Closed-form keyframe interval actually implemented by the code:
truncation (floor) of `fps * max(gop_s, 0.25)`, floored at 1 frame, then
halved (floor division, again floored at 1) for "low" and thirded for
"ultra". -/
def codeKeyint (fps : ℕ) (gop_s : ℚ) (latency : String) : ℕ :=
  let b := max (⌊(fps : ℚ) * max gop_s (1/4)⌋.toNat) 1
  if latency = "normal" then b
  else if latency = "low" then max 1 (b / 2)
  else max 1 (b / 3)

/-- Modelled from the spec: the keyframe interval as the claim words it,
`round(fps * max(gopSeconds, 0.25))` divided per the active profile
(normal unchanged, low halved, ultra thirded) with a floor of 1 frame.
Kept separate from the source-derived `codeKeyint` for comparison. -/
def claimedKeyint (fps : ℕ) (gop_s : ℚ) (latency : String) : ℕ :=
  let b := (round ((fps : ℚ) * max gop_s (1/4))).toNat
  if latency = "normal" then max 1 b
  else if latency = "low" then max 1 (b / 2)
  else max 1 (b / 3)

/-- Scan an argument vector for `flag` and return the following element. -/
def valueAfter (flag : String) : List String → Option String
  | [] => none
  | a :: rest => if a = flag then rest.head? else valueAfter flag rest

/-! ## Capture-size capping (`main`, lines 636-648) -/

/-- The capture size `main` passes to the encoder when a virtual display
is active: if the reported actual size differs from the requested one it
is capped component-wise to the request, else used as reported. -/
def used_capture_size (req act : ℕ × ℕ) : ℕ × ℕ :=
  if act ≠ req then (min act.1 req.1, min act.2 req.2) else act

/-! ## Virtual-display backend selection (`start_virtual`, lines 103-116) -/

/-- Backend chosen by `start_virtual` when `backend == "auto"`:
`which("xpra")`, then `which("Xephyr")`, then `which("Xvfb")`, else none
(which the code turns into a fatal `RuntimeError`).  `avail` embeds
`shutil.which`. -/
def choose_backend (avail : String → Bool) : Option String :=
  if avail "xpra" then some "xpra"
  else if avail "Xephyr" then some "xephyr"
  else if avail "Xvfb" then some "xvfb"
  else none

/-- Modelled from the spec: the claim's priority order — nested-windowed
server (Xephyr) first, then headless framebuffer (Xvfb), then the
remote-desktop-style server (xpra). -/
def claimed_backend_choice (avail : String → Bool) : Option String :=
  if avail "Xephyr" then some "xephyr"
  else if avail "Xvfb" then some "xvfb"
  else if avail "xpra" then some "xpra"
  else none

/-- First available entry of a `(binary, backend-name)` priority list. -/
def first_avail (avail : String → Bool) : List (String × String) → Option String
  | [] => none
  | p :: rest => if avail p.1 then some p.2 else first_avail avail rest

/-! ## LAN heuristic (`same_lan`, lines 512-519) -/

/-- Split a character list at every occurrence of the character `c`,
keeping empty fields — the semantics of Python `str.split` with a
single-character separator.  `acc` holds the current field reversed. -/
def splitCharAux (c : Char) : List Char → List Char → List (List Char)
  | [], acc => [acc.reverse]
  | x :: xs, acc =>
    if x = c then acc.reverse :: splitCharAux c xs []
    else splitCharAux c xs (x :: acc)

/-- Python `s.split(".")`-style split of a string on one character. -/
def pySplitChar (s : String) (c : Char) : List String :=
  (splitCharAux c s.data []).map List.asString

/-- `same_lan(a, b)`: joins the first three dot-separated fields of each
address with `"."` and compares.  The Python string operations used cannot
raise, so the `except` arm returning `False` is unreachable. -/
def same_lan (a b : String) : Bool :=
  let a3 := String.intercalate "." ((pySplitChar a '.').take 3)
  let b3 := String.intercalate "." ((pySplitChar b '.').take 3)
  a3 == b3

/-! ## Audio sink release and the `main` orchestration
    (`restore_sinks` lines 53-57, `main` lines 589-749) -/

/-- Observable actions of a session run.  `audioSetup` is the
`setup_null_sink` call, the spawn events fire only when the corresponding
`Popen` returns, `setDefaultSink`/`unloadSink` are the two `pactl`
commands issued by `restore_sinks`. -/
inductive Ev
  | audioSetup
  | displaySpawn
  | encoderSpawn
  | discover
  | appLaunch
  | playMedia
  | stopAll
  | setDefaultSink (s : String)
  | unloadSink (idx : String)
  deriving DecidableEq

/-- `restore_sinks(original, idx)`: restore the previous default sink when
one was recorded, and — via `try/finally`, hence unconditionally afterwards
— unload the created null-sink module when its index is known.  Empty or
absent Python values are both embedded as `none`.  Both `pactl` runs send
their output to `DEVNULL` and are not `check`ed, so the function is total:
it performs at most these two actions and returns. -/
def restore_sinks (original idx : Option String) : List Ev :=
  (original.map Ev.setDefaultSink).toList ++ (idx.map Ev.unloadSink).toList

/-- Environment for one run of `main`: which external steps succeed, plus
the flags that steer control flow.  `origSink`/`sinkIdx` are what
`setup_null_sink` resolved (when it succeeded). -/
structure MainEnv where
  audioOk : Bool
  origSink : Option String
  sinkIdx : Option String
  virtual : Bool
  displayOk : Bool
  encoderOk : Bool
  deviceFound : Bool
  appIdSet : Bool
  lanOnly : Bool
  sameLanOk : Bool
  deriving DecidableEq

/-- How a run of `main` terminates: falling through normally (exit 0), a
`SystemExit(code)`, or an uncaught exception. -/
inductive Outcome
  | ok
  | sysExit (code : ℕ)
  | raised (what : String)
  deriving DecidableEq

/-- The `try:` body of `main` (lines 630-742): virtual display (when
requested), FFmpeg spawn, discovery, best-effort receiver launch, LAN
policy gate, playback.  A failing step raises out of the body; the
`KeyboardInterrupt` that ends the steady-state loop is caught, so a full
run returns normally. -/
def mainBody (env : MainEnv) : Outcome × List Ev :=
  if env.virtual && !env.displayOk then (.raised "DisplayProvisionError", [])
  else
    let dEvs := if env.virtual then [Ev.displaySpawn] else []
    if !env.encoderOk then (.raised "EncoderSpawnError", dEvs)
    else
      let e1 := dEvs ++ [Ev.encoderSpawn, Ev.discover]
      if !env.deviceFound then (.sysExit 2, e1)
      else
        let e2 := e1 ++ (if env.appIdSet then [Ev.appLaunch] else [])
        if env.lanOnly && !env.sameLanOk then (.sysExit 5, e2)
        else (.ok, e2 ++ [Ev.playMedia])

/-- `main` itself: `setup_null_sink` runs before the `try`, so its failure
propagates with no teardown; otherwise the `finally:` block always runs
`stop_everything()` followed by `restore_sinks(orig_sink, pa_idx)`, and the
body's outcome (normal or `SystemExit`) propagates afterwards. -/
def mainRun (env : MainEnv) : Outcome × List Ev :=
  if !env.audioOk then (.raised "AudioBackendError", [Ev.audioSetup])
  else
    let b := mainBody env
    (b.1, Ev.audioSetup :: b.2 ++ ([Ev.stopAll] ++ restore_sinks env.origSink env.sinkIdx))

/-! ## Teardown of process handles (`stop_everything`, lines 530-580) -/

/-- A spawned process handle.  `alive` is `poll() is None`; `diesOnFirst`
records whether the interrupt-plus-bounded-wait suffices for the FFmpeg
handle, or whether the escalation to `SIGKILL` fires.  Signals delivered
by the stop path are modelled as effective: a signalled process is no
longer alive. -/
structure Proc where
  diesOnFirst : Bool
  alive : Bool
  deriving DecidableEq

/-- Signals the stop path can send to a process group. -/
inductive Sig
  | int
  | term
  | kill
  deriving DecidableEq

/-- The FFmpeg branch of `stop_everything`: on a live handle, `SIGINT` to
the group, bounded wait, `SIGKILL` if still alive; a dead or absent handle
is untouched.  Every signalling step is wrapped in `try/except` in the
source, so the step never raises. -/
def stopGraceKill (p : Option Proc) : Option Proc × List Sig :=
  match p with
  | none => (none, [])
  | some pr =>
    if pr.alive then
      (if pr.diesOnFirst then (some { pr with alive := false }, [Sig.int])
       else (some { pr with alive := false }, [Sig.int, Sig.kill]))
    else (some pr, [])

/-- The WM/attach/virtual-display branches: a single `SIGTERM` to the
group of a live handle; dead or absent handles are untouched. -/
def stopTermOnly (p : Option Proc) : Option Proc × List Sig :=
  match p with
  | none => (none, [])
  | some pr =>
    if pr.alive then (some { pr with alive := false }, [Sig.term])
    else (some pr, [])

/-- The four module-level process handles `stop_everything` signals, in
the order the source visits them. -/
structure StopState where
  ff : Option Proc
  wm : Option Proc
  attach : Option Proc
  virt : Option Proc
  deriving DecidableEq

/-- `stop_everything()` restricted to its process-handle signalling (the
best-effort cast-control calls beforehand touch no process handle).  The
handles themselves are never cleared; liveness is re-checked via
`poll()`. -/
def stop_everything (s : StopState) : StopState × List Sig :=
  let f := stopGraceKill s.ff
  let w := stopTermOnly s.wm
  let a := stopTermOnly s.attach
  let v := stopTermOnly s.virt
  (⟨f.1, w.1, a.1, v.1⟩, f.2 ++ w.2 ++ a.2 ++ v.2)

/-! ## GUI quick-restart path (`cast_gui.py`) -/

/-- Observable GUI actions: status-line updates, log lines, the `SIGINT`
sent to the child's process group by `on_stop`, and the deferred
`self.after(600, self.on_start)` restart scheduling. -/
inductive GuiEv
  | statusSet (s : String)
  | logMsg (m : String)
  | stopSignal
  | scheduleStart
  deriving DecidableEq

/-- The GUI state touched by the restart path: `self.proc` (present while
a child runs — only liveness matters here, so it is a `Bool`),
`self._pending_restart`, `self._pending_restart_reason`,
`self._is_stopping`, and the status line. -/
structure GuiState where
  procAlive : Bool
  pending : Bool
  reason : Option String
  stopping : Bool
  status : String
  deriving DecidableEq

/-- Python `x or default` on an optional string: `None` and `""` both fall
back. -/
def pyOrStr (o : Option String) (d : String) : String :=
  match o with
  | none => d
  | some s => if s = "" then d else s

/-- `on_stop(reason)` (lines 512-530): a no-op without a child process;
otherwise mark stopping, update the status line, log, and signal the
child's process group. -/
def on_stop (s : GuiState) (reason : String) : GuiState × List GuiEv :=
  if !s.procAlive then (s, [])
  else
    ({ s with stopping := true, status := "stoppt …" },
     [GuiEv.statusSet "stoppt …", GuiEv.logMsg ("Stoppe Stream … (" ++ reason ++ ")"),
      GuiEv.stopSignal])

/-- `_quick_restart(reason)` (lines 540-546): an early `return` when a
restart is already pending; otherwise record the pending restart and its
reason, show it, and stop the child. -/
def quick_restart (s : GuiState) (reason : String) : GuiState × List GuiEv :=
  if s.pending then (s, [])
  else
    let s1 := { s with pending := true, reason := some reason,
                       status := "Neustart: " ++ reason ++ " …" }
    let r := on_stop s1 reason
    (r.1, GuiEv.statusSet s1.status :: r.2)

/-- `_on_process_end` (lines 425-438): clear the process handle; without a
pending restart, return to the idle status; with one, consume the pending
flag and reason and schedule exactly one deferred `on_start`. -/
def on_process_end (s : GuiState) : GuiState × List GuiEv :=
  let s0 := { s with procAlive := false }
  if s0.pending then
    let why := pyOrStr s0.reason "Neustart"
    ({ s0 with pending := false, reason := none,
               status := "Starte neu (" ++ why ++ ") …" },
     [GuiEv.logMsg "Prozess beendet.",
      GuiEv.statusSet ("Starte neu (" ++ why ++ ") …"),
      GuiEv.scheduleStart])
  else
    ({ s0 with stopping := false, status := "bereit" },
     [GuiEv.statusSet "bereit", GuiEv.logMsg "Prozess beendet."])

/-- Recognizer for the deferred-restart event, used to count restarts. -/
def isScheduleStart : GuiEv → Bool
  | .scheduleStart => true
  | _ => false

/-! ## Device discovery (`find_cast`, lines 492-510) -/

/-- A discovered cast device (only the friendly name matters here). -/
structure Cast where
  name : String
  deriving DecidableEq

/-- Does `pat` start the list `l`? -/
def startsList (pat l : List Char) : Bool :=
  match pat, l with
  | [], _ => true
  | _ :: _, [] => false
  | x :: xs, y :: ys => x = y && startsList xs ys

/-- Does `pat` occur contiguously inside `l`?  The empty pattern always
does — matching Python's `"" in s`. -/
def containsList (pat : List Char) : List Char → Bool
  | [] => pat.isEmpty
  | y :: ys => startsList pat (y :: ys) || containsList pat ys

/-- Python `pat in s` on strings. -/
def containsSub (s pat : String) : Bool :=
  containsList pat.data s.data

/-- Python `s.lower()`, embedded character-wise. -/
def pyLower (s : String) : String :=
  (s.data.map Char.toLower).asString

/-- Python truthiness of an optional string argument. -/
def pyTruthy (o : Option String) : Bool :=
  match o with
  | none => false
  | some s => s ≠ ""

/-- The name-substring loop of `find_cast`: first device whose lowercased
name contains the lowercased pattern. -/
def findMatch (pat : String) : List Cast → Option Cast
  | [] => none
  | c :: rest =>
    if containsSub (pyLower c.name) (pyLower pat) then some c
    else findMatch pat rest

/-- The general-discovery part of `find_cast`: empty discovery returns
`None`; otherwise the first name match when a (truthy) name filter was
given, else — and when no match is found — the first device. -/
def general_discovery (name_contains : Option String) (casts : List Cast) :
    Option Cast :=
  match casts with
  | [] => none
  | c :: rest =>
    if pyTruthy name_contains then
      match findMatch (name_contains.getD "") (c :: rest) with
      | some m => some m
      | none => some c
    else some c

/-- Environment for discovery: `connect ip` is the
`pychromecast.Chromecast(ip)` attempt (`none` embeds the exception path,
which the source catches and logs), `discovered` is
`pychromecast.get_chromecasts()`. -/
structure DiscEnv where
  connect : String → Option Cast
  discovered : List Cast

/-- `find_cast(name_contains, ip)`: a truthy `ip` is tried first and
returned on success; a failed connect falls through — like a missing
`ip` — to general discovery. -/
def find_cast (name_contains ip : Option String) (env : DiscEnv) : Option Cast :=
  if pyTruthy ip then
    match env.connect (ip.getD "") with
    | some c => some c
    | none => general_discovery name_contains env.discovered
  else general_discovery name_contains env.discovered

/-! ## Theorems -/

/-- The GOP value `build_ffmpeg_cmd` passes to `-g`/`-keyint_min` equals
the closed-form `codeKeyint`, for any encoder name. -/
theorem gop_use_closed_form (latency enc : String) (fps : ℕ) (gop_s : ℚ) :
    pyOrNat (latency_flags latency enc (gop_frames fps gop_s)).2.2.2
        (gop_frames fps gop_s)
      = codeKeyint fps gop_s latency := by
  have hmax : ∀ n : ℕ, max 1 n ≠ 0 := fun n =>
    (Nat.one_pos.trans_le (Nat.le_max_left 1 n)).ne'
  by_cases h1 : latency = "normal"
  · simp [latency_flags, lfGopOverride, codeKeyint, gop_frames, pyOrNat, h1]
  · by_cases h2 : latency = "low"
    · simp [latency_flags, lfGopOverride, codeKeyint, gop_frames, pyOrNat, h1, h2, hmax]
    · simp [latency_flags, lfGopOverride, codeKeyint, gop_frames, pyOrNat, h1, h2, hmax]

/-- Claim C1 (amended): for every fps, gopSeconds and latency profile, the
values emitted for `-g` and `-keyint_min` equal the truncation (floor) of
`fps * max(gopSeconds, 0.25)` floored at 1 frame, then divided per the
active profile — unchanged for "normal", halved for "low", thirded for
"ultra", each again floored at 1 frame; in particular the interval is
60 / 30 / 20 frames for fps=30, gopSeconds=2 under normal / low / ultra. -/
theorem keyframe_interval_per_profile :
    (∀ (display : String) (W H fps : ℕ) (hw : String) (gop_s : ℚ) (port : ℕ)
        (loglevel sink_name latency : String) (det : Option String),
      ∃ pre post,
        build_ffmpeg_cmd display W H fps hw gop_s port loglevel sink_name latency det
          = pre ++ ["-g", toString (codeKeyint fps gop_s latency),
                    "-keyint_min", toString (codeKeyint fps gop_s latency)] ++ post)
    ∧ codeKeyint 30 2 "normal" = 60
    ∧ codeKeyint 30 2 "low" = 30
    ∧ codeKeyint 30 2 "ultra" = 20 := by
  have hb : max (⌊((30 : ℕ) : ℚ) * max (2 : ℚ) (1/4)⌋.toNat) 1 = 60 := by
    have h60 : ((30 : ℕ) : ℚ) * max (2 : ℚ) (1/4) = ((60 : ℤ) : ℚ) := by
      rw [max_eq_left (by norm_num : (1/4 : ℚ) ≤ 2)]
      norm_num
    rw [h60, Int.floor_intCast]
    decide
  refine ⟨fun display W H fps hw gop_s port loglevel sink_name latency det =>
    ⟨ffmpegFront display W H fps hw loglevel sink_name latency det (gop_frames fps gop_s),
     ffmpegTail port, by simp only [build_ffmpeg_cmd, gop_use_closed_form]⟩,
    by simp only [codeKeyint, hb]; decide,
    by simp only [codeKeyint, hb]; decide,
    by simp only [codeKeyint, hb]; decide⟩

/-- Claim C1 counterexample: at fps=30, gopSeconds=0.25 with the "normal"
profile the command emits a keyframe interval of 7 frames (truncation of
7.5), while the claimed `round`-based formula gives 8. -/
theorem keyframe_interval_round_counterexample :
    valueAfter "-g"
        (build_ffmpeg_cmd ":0" 3840 2160 30 "software" (1/4) 8090 "info"
          "cast_sink" "normal" none)
      = some "7"
    ∧ claimedKeyint 30 (1/4) "normal" = 8
    ∧ ("7" : String) ≠ "8" := by
  have hq : ((30 : ℕ) : ℚ) * max (1/4 : ℚ) (1/4) = (15 : ℚ)/2 := by norm_num
  have hg : gop_frames 30 (1/4) = 7 := by
    have h7 : ⌊(15 : ℚ)/2⌋ = 7 := by
      rw [Int.floor_eq_iff]
      norm_num
    simp only [gop_frames, hq, h7]
    decide
  have h8 : round ((15 : ℚ)/2) = 8 := by
    rw [round_eq]
    have h82 : (15 : ℚ)/2 + 1/2 = ((8 : ℤ) : ℚ) := by norm_num
    rw [h82, Int.floor_intCast]
  refine ⟨by simp only [build_ffmpeg_cmd, hg]; decide,
    by simp only [claimedKeyint, hq, h8]; decide,
    by decide⟩

/-- Claim C2: whenever the reported actual size of the virtual display
differs from the requested size, the capture size `main` actually uses is
component-wise at most the requested size. -/
theorem capture_size_capped_le_request (req act : ℕ × ℕ) (h : act ≠ req) :
    (used_capture_size req act).1 ≤ req.1
    ∧ (used_capture_size req act).2 ≤ req.2 := by
  simp only [used_capture_size, if_pos h]
  exact ⟨Nat.min_le_right _ _, Nat.min_le_right _ _⟩

/-- Witness for C2 at requested 3840x2160 and reported 4096x1200. -/
theorem capture_size_capped_le_request_wit :
    ((4096, 1200) : ℕ × ℕ) ≠ (3840, 2160)
    ∧ (used_capture_size (3840, 2160) (4096, 1200)).1 ≤ 3840
    ∧ (used_capture_size (3840, 2160) (4096, 1200)).2 ≤ 2160 :=
  ⟨by decide, capture_size_capped_le_request (3840, 2160) (4096, 1200) (by decide)⟩

/-- Claim C3 counterexample: with every backend binary available, the
code's "auto" selection picks xpra, not the claimed Xephyr-first order. -/
theorem backend_auto_priority_counterexample :
    choose_backend (fun _ => true) = some "xpra"
    ∧ claimed_backend_choice (fun _ => true) = some "xephyr"
    ∧ (some "xpra" : Option String) ≠ some "xephyr" :=
  ⟨rfl, rfl, by decide⟩

/-- Claim C3 (amended): with backend preference "auto", `start_virtual`
chooses the first available backend in the priority order xpra, then
Xephyr, then Xvfb. -/
theorem backend_auto_priority_order (avail : String → Bool) :
    choose_backend avail
      = first_avail avail [("xpra", "xpra"), ("Xephyr", "xephyr"), ("Xvfb", "xvfb")] := by
  simp [choose_backend, first_avail]

/-- Claim C4: `same_lan` judges 192.168.1.10 / 192.168.1.20 as the same
network and 192.168.1.10 / 10.0.0.5 as different networks, and in general
returns true exactly when the first three dot-separated octets of both
addresses agree. -/
theorem same_lan_octet_check :
    same_lan "192.168.1.10" "192.168.1.20" = true
    ∧ same_lan "192.168.1.10" "10.0.0.5" = false
    ∧ ∀ a b : String,
        same_lan a b = true
          ↔ String.intercalate "." ((pySplitChar a '.').take 3)
              = String.intercalate "." ((pySplitChar b '.').take 3) := by
  refine ⟨by decide, by decide, fun a b => ?_⟩
  simp [same_lan]

/-- Claim C5: in every session run in which audio-sink acquisition raises,
neither a virtual-display backend process nor an encoder process is ever
spawned — `setup_null_sink` runs before the `try`, so the failure
propagates before the display and encoder steps can execute. -/
theorem audio_failure_blocks_display_and_encoder (env : MainEnv)
    (h : env.audioOk = false) :
    Ev.displaySpawn ∉ (mainRun env).2 ∧ Ev.encoderSpawn ∉ (mainRun env).2 := by
  constructor <;> simp [mainRun, h]

/-- Witness for C5: an environment whose audio setup fails. -/
theorem audio_failure_blocks_display_and_encoder_wit :
    ((⟨false, none, none, true, true, true, true, true, false, true⟩ : MainEnv).audioOk
        = false)
    ∧ Ev.displaySpawn
        ∉ (mainRun ⟨false, none, none, true, true, true, true, true, false, true⟩).2
    ∧ Ev.encoderSpawn
        ∉ (mainRun ⟨false, none, none, true, true, true, true, true, false, true⟩).2 :=
  ⟨rfl, audio_failure_blocks_display_and_encoder
    ⟨false, none, none, true, true, true, true, true, false, true⟩ rfl⟩

/-- Claim C6: the stop path is idempotent — after a completed invocation
of `stop_everything`, a second invocation signals no process handle and
leaves the handle state unchanged (every signalling step in the source is
also wrapped in `try/except`, so the embedded step functions are total). -/
theorem stop_everything_idempotent (s : StopState) :
    stop_everything (stop_everything s).1 = ((stop_everything s).1, []) := by
  have hgk : ∀ p : Option Proc,
      stopGraceKill (stopGraceKill p).1 = ((stopGraceKill p).1, []) := by
    intro p
    rcases p with _ | ⟨d, a⟩
    · rfl
    · cases a <;> cases d <;> simp [stopGraceKill]
  have hto : ∀ p : Option Proc,
      stopTermOnly (stopTermOnly p).1 = ((stopTermOnly p).1, []) := by
    intro p
    rcases p with _ | ⟨d, a⟩
    · rfl
    · cases a <;> cases d <;> simp [stopTermOnly]
  simp [stop_everything, hgk, hto]

/-- Claim C7: `restore_sinks` performs no action when both arguments are
absent, and with both present restores the previous default sink strictly
before destroying the created sink; it is a total function (each `pactl`
invocation is un-`check`ed with output discarded, and the `try/finally`
only enforces that the unload still runs). -/
theorem restore_sinks_spec :
    restore_sinks none none = []
    ∧ ∀ o i : String,
        restore_sinks (some o) (some i) = [Ev.setDefaultSink o, Ev.unloadSink i] :=
  ⟨rfl, fun _ _ => rfl⟩

/-- Claim C8: when discovery finds no device, the run ends in
`SystemExit(2)` — a distinct non-zero exit code — and the teardown that
runs before exit invokes `restore_sinks` on the handles acquired so far,
destroying any created audio sink. -/
theorem device_not_found_aborts_with_teardown (env : MainEnv)
    (haudio : env.audioOk = true) (hdisp : env.virtual = true → env.displayOk = true)
    (henc : env.encoderOk = true) (hdev : env.deviceFound = false) :
    (mainRun env).1 = Outcome.sysExit 2
    ∧ (2 : ℕ) ≠ 0
    ∧ Ev.stopAll ∈ (mainRun env).2
    ∧ ∀ i, env.sinkIdx = some i → Ev.unloadSink i ∈ (mainRun env).2 := by
  cases hv : env.virtual with
  | false =>
    refine ⟨by simp [mainRun, mainBody, haudio, henc, hdev, hv], by decide,
      by simp [mainRun, mainBody, haudio, henc, hdev, hv], ?_⟩
    intro i hi
    simp [mainRun, mainBody, haudio, henc, hdev, hv, restore_sinks, hi]
  | true =>
    have hd := hdisp hv
    refine ⟨by simp [mainRun, mainBody, haudio, henc, hdev, hv, hd], by decide,
      by simp [mainRun, mainBody, haudio, henc, hdev, hv, hd], ?_⟩
    intro i hi
    simp [mainRun, mainBody, haudio, henc, hdev, hv, hd, restore_sinks, hi]

/-- Witness for C8: audio acquired (sink index "17"), no device found. -/
theorem device_not_found_aborts_with_teardown_wit :
    ((⟨true, some "alsa_out", some "17", false, false, true, false, true, false,
        true⟩ : MainEnv).audioOk = true)
    ∧ ((⟨true, some "alsa_out", some "17", false, false, true, false, true, false,
        true⟩ : MainEnv).virtual = true →
       (⟨true, some "alsa_out", some "17", false, false, true, false, true, false,
        true⟩ : MainEnv).displayOk = true)
    ∧ ((mainRun ⟨true, some "alsa_out", some "17", false, false, true, false, true,
        false, true⟩).1 = Outcome.sysExit 2
       ∧ (2 : ℕ) ≠ 0
       ∧ Ev.stopAll ∈ (mainRun ⟨true, some "alsa_out", some "17", false, false, true,
            false, true, false, true⟩).2
       ∧ ∀ i, (⟨true, some "alsa_out", some "17", false, false, true, false, true,
            false, true⟩ : MainEnv).sinkIdx = some i →
           Ev.unloadSink i ∈ (mainRun ⟨true, some "alsa_out", some "17", false, false,
             true, false, true, false, true⟩).2) :=
  by
  refine ⟨rfl, ?_, ?_⟩
  · intro h
    exact nomatch h
  · exact device_not_found_aborts_with_teardown
      ⟨true, some "alsa_out", some "17", false, false, true, false, true, false, true⟩
      rfl (fun h => nomatch h) rfl rfl

/-- Claim C9: at most one latency-triggered restart is pending —
`_quick_restart` while one is pending is a no-op that changes no state and
emits no action, and `_on_process_end` schedules at most one deferred
start per confirmed process exit (and clears the pending flag). -/
theorem pending_restart_single (s : GuiState) (reason : String)
    (h : s.pending = true) :
    quick_restart s reason = (s, [])
    ∧ ∀ t : GuiState,
        ((on_process_end t).2.countP isScheduleStart) ≤ 1
        ∧ (on_process_end t).1.pending = false := by
  refine ⟨by simp [quick_restart, h], fun t => ?_⟩
  by_cases hp : t.pending <;>
    simp [on_process_end, hp, isScheduleStart, List.countP_cons]

/-- Witness for C9: a streaming GUI state with a restart already pending. -/
theorem pending_restart_single_wit :
    ((⟨true, true, some "Latenz geändert", false, "streamt"⟩ : GuiState).pending = true)
    ∧ (quick_restart ⟨true, true, some "Latenz geändert", false, "streamt"⟩ "Latenz"
         = (⟨true, true, some "Latenz geändert", false, "streamt"⟩, [])
       ∧ ∀ t : GuiState,
           ((on_process_end t).2.countP isScheduleStart) ≤ 1
           ∧ (on_process_end t).1.pending = false) :=
  ⟨rfl, pending_restart_single ⟨true, true, some "Latenz geändert", false, "streamt"⟩
    "Latenz" rfl⟩

/-- Helper for C10: general discovery returns nothing exactly when the
device list is empty. -/
theorem general_discovery_none_iff (name : Option String) (casts : List Cast) :
    general_discovery name casts = none ↔ casts = [] := by
  cases casts with
  | nil => simp [general_discovery]
  | cons c rest =>
    simp only [general_discovery]
    constructor
    · intro hnone
      by_cases hp : pyTruthy name
      · rcases hm : findMatch (name.getD "") (c :: rest) with _ | m <;>
          simp [hp, hm] at hnone
      · simp [hp] at hnone
    · intro hc
      cases hc

/-- Claim C10: when connecting to an explicitly supplied device address
fails, `find_cast` silently falls back to general discovery (so it may
return a different device), and returns nothing exactly when general
discovery also finds zero devices. -/
theorem find_cast_ip_fallback (name : Option String) (a : String) (env : DiscEnv)
    (h : env.connect a = none) :
    find_cast name (some a) env = general_discovery name env.discovered
    ∧ (find_cast name (some a) env = none ↔ env.discovered = []) := by
  have hfb : find_cast name (some a) env = general_discovery name env.discovered := by
    by_cases ha : a = ""
    · simp [find_cast, pyTruthy, ha]
    · simp [find_cast, pyTruthy, ha, h]
  exact ⟨hfb, by rw [hfb]; exact general_discovery_none_iff name env.discovered⟩

/-- Witness for C10: a dead explicit address together with one discovered
device named "LivingRoomTV". -/
theorem find_cast_ip_fallback_wit :
    ((⟨fun _ => none, [⟨"LivingRoomTV"⟩]⟩ : DiscEnv).connect "192.168.1.42" = none)
    ∧ (find_cast (some "living") (some "192.168.1.42") ⟨fun _ => none, [⟨"LivingRoomTV"⟩]⟩
         = general_discovery (some "living")
             ((⟨fun _ => none, [⟨"LivingRoomTV"⟩]⟩ : DiscEnv).discovered)
       ∧ (find_cast (some "living") (some "192.168.1.42")
            ⟨fun _ => none, [⟨"LivingRoomTV"⟩]⟩ = none
          ↔ ((⟨fun _ => none, [⟨"LivingRoomTV"⟩]⟩ : DiscEnv).discovered = []))) :=
  ⟨rfl, find_cast_ip_fallback (some "living") "192.168.1.42"
    ⟨fun _ => none, [⟨"LivingRoomTV"⟩]⟩ rfl⟩

end CastStream
